import Mathlib

/-!
Verification development for the flight status notification system
(Flight model, FlightService, Subscription model, NotificationService).
All definitions are shallow embeddings of the JavaScript source:
timestamps are modelled as `Int` milliseconds (JS `Date.getTime()` /
`Date.now()`), `Math.floor` of a millisecond difference divided by a
window is `Int.fdiv`, and thrown JS errors are modelled by explicit
outcome constructors carrying the document state at throw time.
-/

/-- Flight status enum, from FLIGHT_STATUSES in src/models/Flight.js. -/
inductive FlightStatus
  | scheduled
  | delayed
  | boarding
  | departed
  | inAir
  | arrived
  | cancelled
  | diverted
deriving DecidableEq, Repr

/-- String value of each status, from FLIGHT_STATUSES in src/models/Flight.js. -/
def FlightStatus.str : FlightStatus → String
  | .scheduled => "Scheduled"
  | .delayed => "Delayed"
  | .boarding => "Boarding"
  | .departed => "Departed"
  | .inAir => "In-Air"
  | .arrived => "Arrived"
  | .cancelled => "Cancelled"
  | .diverted => "Diverted"

/-- Allowed-transition table, from initializeValidationRules in
src/services/FlightService.js (this.statusTransitions). -/
def statusTransitions : FlightStatus → List FlightStatus
  | .scheduled => [.delayed, .boarding, .cancelled]
  | .delayed => [.boarding, .cancelled]
  | .boarding => [.departed, .cancelled]
  | .departed => [.inAir, .diverted]
  | .inAir => [.arrived, .diverted]
  | .arrived => []
  | .cancelled => []
  | .diverted => [.arrived]

/-- validateStatusTransition from src/services/FlightService.js:
membership of the requested status in the allowed list for the current one. -/
def validateStatusTransition (currentStatus newStatus : FlightStatus) : Bool :=
  (statusTransitions currentStatus).contains newStatus

/-- Departure and arrival schedule of a flight (ScheduleSchema in
src/models/Flight.js). Scheduled times are required by the schema;
estimated and actual times are optional. All times in ms. -/
structure Schedule where
  depScheduled : Int
  depEstimated : Option Int
  depActual : Option Int
  arrScheduled : Int
  arrEstimated : Option Int
  arrActual : Option Int
deriving DecidableEq, Repr

/-- One status history entry (StatusHistorySchema in src/models/Flight.js).
The metadata map is omitted: no claim depends on it. -/
structure StatusHistoryEntry where
  status : FlightStatus
  timestamp : Int
  reason : String
  updatedBy : String
deriving DecidableEq, Repr

/-- The flight document fields touched by the status machine
(src/models/Flight.js): current status, status history, schedule,
delay minutes and lastUpdated. -/
structure Flight where
  current : FlightStatus
  history : List StatusHistoryEntry
  schedule : Schedule
  delayMinutes : Int
  lastUpdated : Int
deriving DecidableEq, Repr

/-- calculateDelay from src/models/Flight.js (lines 451-465): priority
actual departure, then estimated departure, then now past scheduled
with no actual recorded; raw minute difference floored, result clamped
to be nonnegative via Math.max(0, delayMinutes). -/
def calculateDelay (now : Int) (sched : Schedule) : Int :=
  let delayMinutes : Int :=
    match sched.depActual with
    | some actual => (actual - sched.depScheduled).fdiv 60000
    | none =>
      match sched.depEstimated with
      | some est => (est - sched.depScheduled).fdiv 60000
      | none =>
        if now > sched.depScheduled then (now - sched.depScheduled).fdiv 60000
        else 0
  max 0 delayMinutes

/-- Modelled from the claim wording of C2 (spec section 4.1, delay
recomputation): priority actual-departure, then estimated-departure,
then (now minus scheduled) only when now is past the scheduled
departure and no actual is recorded, else 0; the raw difference in
minutes is clamped to be at least 0. Used only to compare with
calculateDelay. -/
def delayPerSpec (now : Int) (sched : Schedule) : Int :=
  match sched.depActual with
  | some actual => max 0 ((actual - sched.depScheduled).fdiv 60000)
  | none =>
    match sched.depEstimated with
    | some est => max 0 ((est - sched.depScheduled).fdiv 60000)
    | none =>
      if now > sched.depScheduled then max 0 ((now - sched.depScheduled).fdiv 60000)
      else 0

/-- FlightSchema.methods.updateStatus from src/models/Flight.js
(lines 467-496): push a history entry recording the previous status,
set the new current status and lastUpdated, set actual departure or
arrival time when missing on Departed or Arrived, then recompute the
delay with calculateDelay. The enum membership check always passes here
because FlightStatus is a closed type. -/
def Flight.updateStatus (f : Flight) (newStatus : FlightStatus) (now : Int)
    (updatedBy : String) : Flight :=
  let oldStatus := f.current
  let f1 : Flight :=
    { f with
      history := f.history ++
        [{ status := oldStatus, timestamp := now,
           reason := "Changed from " ++ oldStatus.str ++ " to " ++ newStatus.str,
           updatedBy := updatedBy }],
      current := newStatus,
      lastUpdated := now }
  let f2 : Flight :=
    if newStatus = .departed ∧ f1.schedule.depActual = none then
      { f1 with schedule := { f1.schedule with depActual := some now } }
    else f1
  let f3 : Flight :=
    if newStatus = .arrived ∧ f2.schedule.arrActual = none then
      { f2 with schedule := { f2.schedule with arrActual := some now } }
    else f2
  { f3 with delayMinutes := calculateDelay now f3.schedule }

/-- FlightStatusError payload thrown by updateFlightStatus in
src/services/FlightService.js: the current status, the requested status
and the allowed transitions for the current status. -/
structure FlightStatusError where
  currentStatus : FlightStatus
  requestedStatus : FlightStatus
  allowed : List FlightStatus
deriving DecidableEq, Repr

/-- Outcome of updateFlightStatus: either a thrown FlightStatusError
together with the flight document state at throw time, or the updated
flight returned on success. -/
inductive UpdateOutcome
  | thrown (e : FlightStatusError) (f : Flight)
  | ok (f : Flight)
deriving DecidableEq, Repr

/-- updateFlightStatus from src/services/FlightService.js (lines
490-609), restricted to an update payload that carries only a status
(no schedule, gate or delay field updates, so updateFields stays empty
and no extra write happens). When the requested status differs from the
current one it is validated against the transition table and a
FlightStatusError is thrown on failure, before any mutation; when it
equals the current one both the validation and the model updateStatus
call are skipped and the flight is returned unchanged. -/
def updateFlightStatus (now : Int) (f : Flight) (newStatus : FlightStatus)
    (updatedBy : String) : UpdateOutcome :=
  let oldStatus := f.current
  if newStatus ≠ oldStatus then
    if validateStatusTransition oldStatus newStatus = false then
      .thrown { currentStatus := oldStatus, requestedStatus := newStatus,
                allowed := statusTransitions oldStatus } f
    else
      .ok (f.updateStatus newStatus now updatedBy)
  else
    .ok f

/-- Subscription status enum, from SUBSCRIPTION_STATUS in
src/models/Subscription.js. -/
inductive SubStatus
  | pending
  | active
  | inactive
  | unsubscribed
  | expired
deriving DecidableEq, Repr

/-- Verification sub-document of a subscription
(src/models/Subscription.js, verification). Times in ms. -/
structure Verification where
  isVerified : Bool
  verificationToken : Option String
  verificationTokenExpires : Option Int
  verifiedAt : Option Int
  verificationAttempts : Nat
deriving DecidableEq, Repr

/-- Unsubscribe sub-document of a subscription
(src/models/Subscription.js, unsubscribe). -/
structure UnsubscribeState where
  token : Option String
  isUnsubscribed : Bool
  unsubscribedAt : Option Int
  reason : Option String
  feedback : Option String
deriving DecidableEq, Repr

/-- One embedded notification history record
(NotificationStatsSchema.notificationHistory in src/models/Subscription.js).
The sentAt default timestamp is omitted: no claim depends on it. -/
structure NotifRecord where
  type : String
  method : String
  status : String
  messageId : Option String
  error : Option String
deriving DecidableEq, Repr

/-- Notification statistics sub-document
(NotificationStatsSchema in src/models/Subscription.js). -/
structure NotifStats where
  totalSent : Nat
  emailsSent : Nat
  smsSent : Nat
  pushSent : Nat
  lastNotificationSent : Option Int
  notificationHistory : List NotifRecord
deriving DecidableEq, Repr

/-- Per-type notification preferences
(NotificationPreferencesSchema in src/models/Subscription.js).
Each field is the enabled flag of the corresponding preference entry;
delivery methods and thresholds are omitted: no claim depends on them. -/
structure NotificationPreferences where
  status_changes : Bool
  delays : Bool
  cancellations : Bool
  boarding_calls : Bool
deriving DecidableEq, Repr

/-- The subscription document fields touched by the lifecycle methods
and the dispatcher (src/models/Subscription.js). -/
structure Subscription where
  email : String
  status : SubStatus
  verification : Verification
  unsub : UnsubscribeState
  notificationPreferences : NotificationPreferences
  notificationStats : NotifStats
  isActive : Bool
deriving DecidableEq, Repr

/-- The isVerificationExpired virtual from src/models/Subscription.js:
a token expiry is recorded and now is strictly past it. -/
def isVerificationExpired (now : Int) (v : Verification) : Bool :=
  match v.verificationTokenExpires with
  | some e => now > e
  | none => false

/-- Lifecycle errors thrown by Subscription.verify
(src/models/Subscription.js, lines 431-457), in source order of the
checks. -/
inductive VerifyError
  | alreadyVerified
  | tokenExpired
  | maxAttemptsExceeded
  | invalidToken
deriving DecidableEq, Repr

/-- Outcome of Subscription.verify: a thrown error together with the
subscription state at throw time (the invalid-token path mutates the
attempt counter and saves before throwing), or the verified
subscription. -/
inductive VerifyOutcome
  | thrown (e : VerifyError) (s : Subscription)
  | verified (s : Subscription)
deriving DecidableEq, Repr

/-- SubscriptionSchema.methods.verify from src/models/Subscription.js
(lines 431-457): checks already-verified, then token expiry, then the
attempt cap of 5, then the token match (incrementing attempts and
persisting on mismatch); on match sets isVerified, verifiedAt, clears
the token and its expiry and sets the status to active. -/
def Subscription.verify (now : Int) (s : Subscription) (token : String) :
    VerifyOutcome :=
  if s.verification.isVerified then
    .thrown .alreadyVerified s
  else if isVerificationExpired now s.verification then
    .thrown .tokenExpired s
  else if s.verification.verificationAttempts ≥ 5 then
    .thrown .maxAttemptsExceeded s
  else if s.verification.verificationToken ≠ some token then
    .thrown .invalidToken
      { s with verification :=
        { s.verification with
          verificationAttempts := s.verification.verificationAttempts + 1 } }
  else
    .verified
      { s with
        verification :=
          { s.verification with
            isVerified := true,
            verifiedAt := some now,
            verificationToken := none,
            verificationTokenExpires := none },
        status := .active }

/-- Errors thrown by Subscription.unsubscribeUser
(src/models/Subscription.js, lines 459-476). -/
inductive UnsubError
  | alreadyUnsubscribed
  | invalidToken
deriving DecidableEq, Repr

/-- Outcome of Subscription.unsubscribeUser: a thrown error with the
unchanged subscription, or the unsubscribed subscription. -/
inductive UnsubOutcome
  | thrown (e : UnsubError) (s : Subscription)
  | unsubscribed (s : Subscription)
deriving DecidableEq, Repr

/-- SubscriptionSchema.methods.unsubscribeUser from
src/models/Subscription.js (lines 459-476): fails when already
unsubscribed; the token match is checked only when a token is supplied
(the JS guard token && this.unsubscribe.token !== token); on success
sets isUnsubscribed, the timestamp, reason and feedback, the status to
unsubscribed and isActive to false. -/
def Subscription.unsubscribeUser (now : Int) (s : Subscription)
    (token : Option String) (reason feedback : String) : UnsubOutcome :=
  if s.unsub.isUnsubscribed then
    .thrown .alreadyUnsubscribed s
  else if (match token with
           | some t => decide (s.unsub.token ≠ some t)
           | none => false) then
    .thrown .invalidToken s
  else
    .unsubscribed
      { s with
        unsub :=
          { s.unsub with
            isUnsubscribed := true,
            unsubscribedAt := some now,
            reason := some reason,
            feedback := some feedback },
        status := .unsubscribed,
        isActive := false }

/-- SubscriptionSchema.methods.addNotification from
src/models/Subscription.js (lines 497-526): increments totalSent and
the per-method counter, records lastNotificationSent, appends the
record, and when the history length exceeds 100 replaces it by
slice(-50), the 50 most recent entries in order. -/
def addNotification (now : Int) (stats : NotifStats)
    (type method status : String) (messageId error : Option String) :
    NotifStats :=
  let stats1 := { stats with totalSent := stats.totalSent + 1,
                             lastNotificationSent := some now }
  let stats2 :=
    if method = "email" then { stats1 with emailsSent := stats1.emailsSent + 1 }
    else if method = "sms" then { stats1 with smsSent := stats1.smsSent + 1 }
    else if method = "push" then { stats1 with pushSent := stats1.pushSent + 1 }
    else stats1
  let hist := stats2.notificationHistory ++
    [{ type := type, method := method, status := status,
       messageId := messageId, error := error }]
  let hist2 := if hist.length > 100 then hist.drop (hist.length - 50) else hist
  { stats2 with notificationHistory := hist2 }

/-- The GDPR expiry computed in the SubscriptionSchema pre-save hook
(src/models/Subscription.js, line 420): consent date plus the retention
period in ms (days times 24*60*60*1000). -/
def gdprExpiryMs (consentDate dataRetentionDays : Int) : Int :=
  consentDate + dataRetentionDays * 86400000

/-- The expiresAt recomputation branch of the SubscriptionSchema
pre-save hook (src/models/Subscription.js, lines 417-426), as run when
the consent date or retention days changed and both are set: the GDPR
expiry is adopted as the new expiresAt exactly when expiresAt is unset
or the GDPR expiry is strictly earlier than it. -/
def recomputeExpiresAt (consentDate dataRetentionDays : Int)
    (expiresAt : Option Int) : Option Int :=
  let gdprExpiry := gdprExpiryMs consentDate dataRetentionDays
  match expiresAt with
  | none => some gdprExpiry
  | some e => if gdprExpiry < e then some gdprExpiry else some e

/-- shouldNotifyStatusChange from the NotificationService
(src/unnamed/part_002, lines 819-850): returns false immediately when
status_changes is disabled, then false on an unchanged status, then for
Boarding, Delayed and Cancelled returns the disjunction of the specific
preference with status_changes, and status_changes alone otherwise. -/
def shouldNotifyStatusChange (p : NotificationPreferences)
    (oldStatus newStatus : FlightStatus) : Bool :=
  if !p.status_changes then false
  else if oldStatus = newStatus then false
  else if newStatus = .boarding then p.boarding_calls || p.status_changes
  else if newStatus = .delayed then p.delays || p.status_changes
  else if newStatus = .cancelled then p.cancellations || p.status_changes
  else p.status_changes

/-- Modelled from the claim wording of C3 (spec section 4.3a):
preference resolution by target status as a disjunction, with
status_changes alone for statuses other than Boarding, Delayed and
Cancelled, and no notification for an unchanged status. Used only to
compare with shouldNotifyStatusChange. -/
def shouldNotifyPerSpec (p : NotificationPreferences)
    (oldStatus newStatus : FlightStatus) : Bool :=
  if oldStatus = newStatus then false
  else
    match newStatus with
    | .boarding => p.boarding_calls || p.status_changes
    | .delayed => p.delays || p.status_changes
    | .cancelled => p.cancellations || p.status_changes
    | _ => p.status_changes

/-- Rate limit configuration (this.config.rateLimit in
src/unnamed/part_002). -/
structure RateCfg where
  maxPerHour : Nat
  maxPerDay : Nat
deriving DecidableEq, Repr

/-- A key of the in-memory rateLimitStore Map. The JS keys are the
strings email:hour:bucket and email:day:bucket; they are modelled
structurally, isHour distinguishing the two families. -/
structure RLKey where
  email : String
  isHour : Bool
  bucket : Int
deriving DecidableEq, Repr

/-- The rateLimitStore Map, modelled as an association list. -/
abbrev RateStore := List (RLKey × Nat)

/-- Map.get with the JS default of 0 (the `|| 0` in the source). -/
def storeGet (st : RateStore) (k : RLKey) : Nat :=
  match st.find? (fun p => p.1 == k) with
  | some p => p.2
  | none => 0

/-- Map.set: the binding for the key is replaced. -/
def storeSet (st : RateStore) (k : RLKey) (v : Nat) : RateStore :=
  (k, v) :: st.filter (fun p => !(p.1 == k))

/-- The hourly bucket key, Math.floor(now / 3600000)
(src/unnamed/part_002, checkRateLimit and updateRateLimit). -/
def hourlyKey (email : String) (now : Int) : RLKey :=
  { email := email, isHour := true, bucket := now.fdiv 3600000 }

/-- The daily bucket key, Math.floor(now / 86400000). -/
def dailyKey (email : String) (now : Int) : RLKey :=
  { email := email, isHour := false, bucket := now.fdiv 86400000 }

/-- checkRateLimit from src/unnamed/part_002 (lines 852-873): false as
soon as the hourly count reaches maxPerHour or the daily count reaches
maxPerDay for the current buckets. -/
def checkRateLimit (cfg : RateCfg) (st : RateStore) (email : String)
    (now : Int) : Bool :=
  let hourCount := storeGet st (hourlyKey email now)
  let dayCount := storeGet st (dailyKey email now)
  if hourCount ≥ cfg.maxPerHour then false
  else if dayCount ≥ cfg.maxPerDay then false
  else true

/-- updateRateLimit from src/unnamed/part_002 (lines 1285-1306): read
both current-bucket counters, then write both incremented by one. The
setTimeout-based cleanup of old buckets only reclaims memory and is
omitted. -/
def updateRateLimit (st : RateStore) (email : String) (now : Int) : RateStore :=
  let hk := hourlyKey email now
  let dk := dailyKey email now
  let hourlyCount := storeGet st hk
  let dailyCount := storeGet st dk
  storeSet (storeSet st hk (hourlyCount + 1)) dk (dailyCount + 1)

/-- Behaviour of the external email channel for one recipient during a
dispatch: sendStatusChangeEmail resolves with success and a message id,
resolves with a failure record, or the processing of the subscription
throws (as when the send call rejects). -/
inductive SendOutcome
  | ok (messageId : String)
  | fail (error : String)
  | exn (error : String)
deriving DecidableEq, Repr

/-- One entry of results.details pushed by notifyStatusChange
(src/unnamed/part_002): the sent and failed entries carry messageId and
error, the rate_limited entry carries a message, the error entry
carries the caught error text. -/
structure Detail where
  email : String
  status : String
  messageId : Option String
  error : Option String
  message : Option String
deriving DecidableEq, Repr

/-- The aggregate returned by notifyStatusChange
(src/unnamed/part_002): the success flag, sent and failed counts, the
details list, and the message and error fields used by the no-
subscription, service-disabled and outer-catch returns. -/
structure NotifyResults where
  success : Bool
  notificationsSent : Nat
  notificationsFailed : Nat
  details : List Detail
  message : Option String
  error : Option String
deriving DecidableEq, Repr

/-- The empty aggregate initialised before the dispatch loop
(src/unnamed/part_002, lines 92-97). -/
def emptyResults : NotifyResults :=
  { success := true, notificationsSent := 0, notificationsFailed := 0,
    details := [], message := none, error := none }

/-- The body of the per-subscription dispatch loop of notifyStatusChange
(src/unnamed/part_002, lines 100-171): skip silently when the
preferences say not to notify; record rate_limited without sending when
checkRateLimit fails; otherwise send, and on success count the send,
update the subscription stats via addNotification with status sent and
record a sent detail; on a failed send count the failure, update stats
with status failed and record a failed detail; a thrown error is caught,
counted as a failure and recorded as an error detail. The rate-limit
store is only read, never written. -/
def processSubscription (cfg : RateCfg) (st : RateStore) (now : Int)
    (oldStatus newStatus : FlightStatus) (send : String → SendOutcome)
    (acc : NotifyResults × List Subscription) (sub : Subscription) :
    NotifyResults × List Subscription :=
  let r := acc.1
  let subsOut := acc.2
  if !shouldNotifyStatusChange sub.notificationPreferences oldStatus newStatus then
    (r, subsOut ++ [sub])
  else if !checkRateLimit cfg st sub.email now then
    let d : Detail :=
      { email := sub.email, status := "rate_limited", messageId := none,
        error := none, message := some "Rate limit exceeded" }
    ({ r with details := r.details ++ [d] }, subsOut ++ [sub])
  else
    match send sub.email with
    | .ok msgId =>
      let stats2 := addNotification now sub.notificationStats "status_changes"
        "email" "sent" (some msgId) none
      let sub2 := { sub with notificationStats := stats2 }
      let d : Detail :=
        { email := sub.email, status := "sent", messageId := some msgId,
          error := none, message := none }
      ({ r with notificationsSent := r.notificationsSent + 1,
                details := r.details ++ [d] },
       subsOut ++ [sub2])
    | .fail err =>
      let stats2 := addNotification now sub.notificationStats "status_changes"
        "email" "failed" none (some err)
      let sub2 := { sub with notificationStats := stats2 }
      let d : Detail :=
        { email := sub.email, status := "failed", messageId := none,
          error := some err, message := none }
      ({ r with notificationsFailed := r.notificationsFailed + 1,
                details := r.details ++ [d] },
       subsOut ++ [sub2])
    | .exn err =>
      let d : Detail :=
        { email := sub.email, status := "error", messageId := none,
          error := some err, message := none }
      ({ r with notificationsFailed := r.notificationsFailed + 1,
                details := r.details ++ [d] },
       subsOut ++ [sub])

/-- The try body of notifyStatusChange (src/unnamed/part_002, lines
66-181): the findActiveByFlight query result is an Except whose error
models the persistence collaborator throwing; a query error propagates
out of the body; an empty result returns the no-subscriptions
aggregate; otherwise each subscription is processed in order. -/
def notifyStatusChangeInner (cfg : RateCfg) (st : RateStore) (now : Int)
    (oldStatus newStatus : FlightStatus) (send : String → SendOutcome)
    (query : Except String (List Subscription)) :
    Except String (NotifyResults × List Subscription) :=
  match query with
  | .error e => .error e
  | .ok subs =>
    if subs.length = 0 then
      .ok ({ success := true, notificationsSent := 0, notificationsFailed := 0,
             details := [],
             message := some "No subscriptions found", error := none }, [])
    else
      .ok (subs.foldl (processSubscription cfg st now oldStatus newStatus send)
             (emptyResults, []))

/-- What the top-level caller of notifyStatusChange observes: either a
propagated thrown error, or a returned aggregate together with the
subscription documents after their stat updates. -/
inductive DispatchOutcome
  | thrown (error : String)
  | returned (r : NotifyResults) (subsAfter : List Subscription)
deriving DecidableEq, Repr

/-- Whether a dispatch outcome is a thrown error. -/
def DispatchOutcome.isThrown : DispatchOutcome → Bool
  | .thrown _ => true
  | .returned _ _ => false

/-- notifyStatusChange from src/unnamed/part_002 (lines 65-196): the
service-disabled early return, then the try body; the outer catch
(lines 182-195) converts any error from the body into a returned
aggregate with success false, the error message, and zero counts — it
never rethrows. -/
def notifyStatusChange (isEnabled : Bool) (cfg : RateCfg) (st : RateStore)
    (now : Int) (oldStatus newStatus : FlightStatus)
    (send : String → SendOutcome)
    (query : Except String (List Subscription)) : DispatchOutcome :=
  if !isEnabled then
    .returned { success := true, notificationsSent := 0,
                notificationsFailed := 0, details := [],
                message := some "Service disabled", error := none } []
  else
    match notifyStatusChangeInner cfg st now oldStatus newStatus send query with
    | .ok rs => .returned rs.1 rs.2
    | .error msg =>
      .returned { success := false, notificationsSent := 0,
                  notificationsFailed := 0, details := [],
                  message := none, error := some msg } []

/-- The rateLimitStore after a notifyStatusChange call: the dispatch
loop reads the store through checkRateLimit but never calls
updateRateLimit or otherwise writes it (src/unnamed/part_002, lines
65-196 contain no write to this.rateLimitStore), so the store after the
call is the store before it. -/
def notifyStatusChangeStore (st : RateStore) : RateStore := st

/-- Retry configuration (this.config.retryAttempts and
this.config.retryDelay in src/unnamed/part_002). -/
structure RetryConfig where
  retryAttempts : Nat
  retryDelay : Nat
deriving DecidableEq, Repr

/-- Behaviour of sendEmail on a given attempt during the retry loop:
resolve with success and a message id, resolve with a non-success
result, or throw. -/
inductive TryOutcome
  | ok (messageId : String)
  | fail
  | exn (error : String)
deriving DecidableEq, Repr

/-- The result object returned by retryFailedNotification. -/
structure RetryResult where
  success : Bool
  messageId : Option String
  error : Option String
deriving DecidableEq, Repr

/-- retryFailedNotification from src/unnamed/part_002 (lines 947-994):
returns the final failure once attempt exceeds retryAttempts; otherwise
waits retryDelay * attempt, tries sendEmail, returns on success,
recurses with attempt + 1 on a non-success result, and on a thrown
error recurses while attempt < retryAttempts or returns the failure
with the error text. The second component collects, oldest first, one
pair (attempt, retryDelay * attempt) per performed try recording the
wait that preceded it. -/
def retryFailedNotification (cfg : RetryConfig)
    (outcomes : Nat → TryOutcome) (attempt : Nat) :
    RetryResult × List (Nat × Nat) :=
  if _hstop : attempt > cfg.retryAttempts then
    ({ success := false, messageId := none,
       error := some "Max retry attempts reached" }, [])
  else
    let wait := (attempt, cfg.retryDelay * attempt)
    match outcomes attempt with
    | .ok msgId =>
      ({ success := true, messageId := some msgId, error := none }, [wait])
    | .fail =>
      let r := retryFailedNotification cfg outcomes (attempt + 1)
      (r.1, wait :: r.2)
    | .exn err =>
      if h2 : attempt < cfg.retryAttempts then
        let r := retryFailedNotification cfg outcomes (attempt + 1)
        (r.1, wait :: r.2)
      else
        ({ success := false, messageId := none, error := some err }, [wait])
termination_by cfg.retryAttempts + 1 - attempt
decreasing_by all_goals omega

/-! Concrete documents used by counterexamples and witnesses. -/

/-- A flight in its initial Scheduled state with an empty history. -/
def exFlight : Flight :=
  { current := .scheduled, history := [],
    schedule := { depScheduled := 0, depEstimated := none, depActual := none,
                  arrScheduled := 3600000, arrEstimated := none,
                  arrActual := none },
    delayMinutes := 0, lastUpdated := 0 }

/-- The schema-default notification preferences
(NotificationPreferencesSchema defaults in src/models/Subscription.js):
status_changes, delays and cancellations enabled, boarding_calls
disabled. -/
def defaultPrefs : NotificationPreferences :=
  { status_changes := true, delays := true, cancellations := true,
    boarding_calls := false }

/-- Fresh notification statistics. -/
def emptyStats : NotifStats :=
  { totalSent := 0, emailsSent := 0, smsSent := 0, pushSent := 0,
    lastNotificationSent := none, notificationHistory := [] }

/-- A fresh, unverified, not-unsubscribed subscription with the schema
defaults. -/
def baseSubscription : Subscription :=
  { email := "passenger@example.com", status := .pending,
    verification := { isVerified := false, verificationToken := some "tok-1",
                      verificationTokenExpires := some 1000000,
                      verifiedAt := none, verificationAttempts := 0 },
    unsub := { token := some "unsub-1", isUnsubscribed := false,
               unsubscribedAt := none, reason := none, feedback := none },
    notificationPreferences := defaultPrefs, notificationStats := emptyStats,
    isActive := true }

/-- baseSubscription after a successful verify at time 50. -/
def verifiedSub : Subscription :=
  { baseSubscription with
    verification := { isVerified := true, verificationToken := none,
                      verificationTokenExpires := none, verifiedAt := some 50,
                      verificationAttempts := 0 },
    status := .active }

/-- The rate limit configuration of the C4 scenario: one send per hour. -/
def dispatchCfg : RateCfg := { maxPerHour := 1, maxPerDay := 1000 }

/-- A delivery channel that always succeeds with message id msg-1. -/
def sendOk : String → SendOutcome := fun _ => .ok "msg-1"

/-- The notification statistics of baseSubscription after one successful
send recorded at the given time. -/
def sentStatsAt (now : Int) : NotifStats :=
  { totalSent := 1, emailsSent := 1, smsSent := 0, pushSent := 0,
    lastNotificationSent := some now,
    notificationHistory := [{ type := "status_changes", method := "email",
                              status := "sent", messageId := some "msg-1",
                              error := none }] }

/-- baseSubscription after one successful send recorded at the given
time. -/
def sentSubAt (now : Int) : Subscription :=
  { baseSubscription with notificationStats := sentStatsAt now }

/-- The aggregate of a dispatch over [baseSubscription] whose single
send succeeded. -/
def sentResults : NotifyResults :=
  { success := true, notificationsSent := 1, notificationsFailed := 0,
    details := [{ email := "passenger@example.com", status := "sent",
                  messageId := some "msg-1", error := none, message := none }],
    message := none, error := none }

/-- The aggregate of a dispatch over [baseSubscription] whose single
recipient was rate limited. -/
def rateLimitedResults : NotifyResults :=
  { success := true, notificationsSent := 0, notificationsFailed := 0,
    details := [{ email := "passenger@example.com", status := "rate_limited",
                  messageId := none, error := none,
                  message := some "Rate limit exceeded" }],
    message := none, error := none }

/-! Claims. -/

/-- C1 counterexample: the pair (Scheduled, Scheduled) is not in the
allowed-transition table, yet updateFlightStatus does not throw — when
the requested status equals the current one the transition validation
is skipped entirely (the guard newStatus !== oldStatus in
src/services/FlightService.js, lines 512 and 524) and the flight is
returned unchanged, so the claim that every pair outside the table
throws InvalidTransitionError is false. -/
theorem c1_self_transition_not_thrown :
    validateStatusTransition .scheduled .scheduled = false ∧
    updateFlightStatus 1000 exFlight .scheduled "Admin" = .ok exFlight := by
  constructor <;> decide

/-- C1 (amended): for every requested status that differs from the
current one and is not in the allowed-transition table,
updateFlightStatus throws a FlightStatusError carrying the current
status, the requested status and the allowed set, with the flight
document (status, history, delay, schedule) unchanged at throw time;
when the requested status equals the current one no validation happens
and the flight is returned unchanged without error. -/
theorem c1_invalid_transition_thrown (now : Int) (f : Flight)
    (newStatus : FlightStatus) (updatedBy : String)
    (hne : newStatus ≠ f.current)
    (hv : validateStatusTransition f.current newStatus = false) :
    updateFlightStatus now f newStatus updatedBy =
      .thrown { currentStatus := f.current, requestedStatus := newStatus,
                allowed := statusTransitions f.current } f := by
  unfold updateFlightStatus
  simp [hne, hv]

/-- C1 witness: Scheduled to Departed is outside the table and throws
with the flight unchanged. -/
theorem c1_witness :
    (FlightStatus.departed ≠ exFlight.current) ∧
    validateStatusTransition exFlight.current .departed = false ∧
    updateFlightStatus 1000 exFlight .departed "Admin" =
      .thrown { currentStatus := .scheduled, requestedStatus := .departed,
                allowed := [.delayed, .boarding, .cancelled] } exFlight :=
  ⟨by decide, by decide,
   c1_invalid_transition_thrown 1000 exFlight .departed "Admin"
     (by decide) (by decide)⟩

/-- C2: calculateDelay equals the specified priority computation
(actual departure first, then estimated departure, then now past the
scheduled departure with no actual recorded, else 0, the raw minute
difference clamped to at least 0) and its result is never negative. -/
theorem c2_calculateDelay_spec (now : Int) (sched : Schedule) :
    calculateDelay now sched = delayPerSpec now sched ∧
    0 ≤ calculateDelay now sched := by
  constructor
  · unfold calculateDelay delayPerSpec
    cases sched.depActual with
    | some a => rfl
    | none =>
      cases sched.depEstimated with
      | some e => rfl
      | none =>
        by_cases hc : now > sched.depScheduled
        · simp [hc]
        · simp [hc]
  · unfold calculateDelay
    exact le_max_left 0 _

/-- C3 counterexample: a subscription with the cancellations preference
enabled but status_changes disabled is not notified on a transition to
Cancelled — shouldNotifyStatusChange returns false from its leading
status_changes guard before the cancellations disjunct is ever reached,
while the claimed disjunction rule (shouldNotifyPerSpec) says it must
be notified. -/
theorem c3_cancellations_only_not_notified :
    shouldNotifyStatusChange
      { status_changes := false, delays := false, cancellations := true,
        boarding_calls := false } .scheduled .cancelled = false ∧
    shouldNotifyPerSpec
      { status_changes := false, delays := false, cancellations := true,
        boarding_calls := false } .scheduled .cancelled = true := by
  constructor <;> decide

/-- C3 (amended): shouldNotifyStatusChange resolves to status_changes
enabled AND a changed status, for every target status — the
boarding_calls, delays and cancellations preferences never affect the
outcome, because the leading status_changes guard returns false first
and makes the disjunctions degenerate. -/
theorem c3_shouldNotify_amended (p : NotificationPreferences)
    (oldStatus newStatus : FlightStatus) :
    shouldNotifyStatusChange p oldStatus newStatus =
      (p.status_changes && !(oldStatus == newStatus)) := by
  obtain ⟨sc, dl, cc, bc⟩ := p
  cases oldStatus <;> cases newStatus <;> cases sc <;> cases dl <;>
    cases cc <;> cases bc <;> rfl

/-- C7: in the pre-save expiry recomputation, the GDPR expiry is
adopted exactly when expiresAt is unset or the GDPR expiry is strictly
earlier than it, and when expiresAt is already set the recomputed value
is never larger than it. -/
theorem c7_expiry_tightens (consentDate dataRetentionDays : Int) :
    recomputeExpiresAt consentDate dataRetentionDays none =
      some (gdprExpiryMs consentDate dataRetentionDays) ∧
    (∀ e : Int,
      recomputeExpiresAt consentDate dataRetentionDays (some e) =
        (if gdprExpiryMs consentDate dataRetentionDays < e then
           some (gdprExpiryMs consentDate dataRetentionDays)
         else some e)) ∧
    (∀ e e2 : Int,
      recomputeExpiresAt consentDate dataRetentionDays (some e) = some e2 →
        e2 ≤ e) := by
  refine ⟨rfl, fun e => rfl, fun e e2 h => ?_⟩
  simp only [recomputeExpiresAt] at h
  by_cases hlt : gdprExpiryMs consentDate dataRetentionDays < e
  · rw [if_pos hlt] at h
    simp only [Option.some.injEq] at h
    omega
  · rw [if_neg hlt] at h
    simp only [Option.some.injEq] at h
    omega

/-- C7 witness: with an expiry already set earlier than the GDPR
expiry, the recomputation keeps it, so the result does not exceed it. -/
theorem c7_witness :
    recomputeExpiresAt 0 1 (some 5) = some 5 ∧ (5 : Int) ≤ 5 :=
  ⟨by decide, (c7_expiry_tightens 0 1).2.2 5 5 (by decide)⟩

/-- C10: unsubscribeUser with no token succeeds on every subscription
that is not already unsubscribed — the token-match check runs only when
a token is supplied and no administrative-actor gate exists — setting
isUnsubscribed, the timestamp, reason and feedback, the status to
unsubscribed and isActive to false. -/
theorem c10_unsubscribe_no_token (now : Int) (s : Subscription)
    (reason feedback : String)
    (h : s.unsub.isUnsubscribed = false) :
    Subscription.unsubscribeUser now s none reason feedback =
      .unsubscribed
        { s with
          unsub := { s.unsub with
                     isUnsubscribed := true,
                     unsubscribedAt := some now,
                     reason := some reason,
                     feedback := some feedback },
          status := .unsubscribed, isActive := false } := by
  unfold Subscription.unsubscribeUser
  simp [h]

/-- C10 witness: the fresh subscription is unsubscribed with a null
token. -/
theorem c10_witness :
    baseSubscription.unsub.isUnsubscribed = false ∧
    Subscription.unsubscribeUser 42 baseSubscription none "user_request" "" =
      .unsubscribed
        { baseSubscription with
          unsub := { baseSubscription.unsub with
                     isUnsubscribed := true,
                     unsubscribedAt := some 42,
                     reason := some "user_request",
                     feedback := some "" },
          status := .unsubscribed, isActive := false } :=
  ⟨rfl, c10_unsubscribe_no_token 42 baseSubscription "user_request" "" rfl⟩

/-- The record appended to the history by addNotification. -/
def appendedRecord (type method status : String)
    (messageId error : Option String) : NotifRecord :=
  { type := type, method := method, status := status,
    messageId := messageId, error := error }

/-- The history produced by addNotification is independent of the
per-method counter branch: it is the appended history, truncated to its
last 50 entries when its length exceeds 100. -/
theorem addNotification_history (now : Int) (stats : NotifStats)
    (type method status : String) (messageId error : Option String) :
    (addNotification now stats type method status messageId error).notificationHistory =
      (if (stats.notificationHistory ++
            [appendedRecord type method status messageId error]).length > 100 then
        (stats.notificationHistory ++
          [appendedRecord type method status messageId error]).drop
          ((stats.notificationHistory ++
            [appendedRecord type method status messageId error]).length - 50)
      else
        stats.notificationHistory ++
          [appendedRecord type method status messageId error]) := by
  unfold appendedRecord
  unfold addNotification
  by_cases h1 : method = "email"
  · simp [h1]
  · by_cases h2 : method = "sms"
    · simp [h1, h2]
    · by_cases h3 : method = "push"
      · simp [h1, h2, h3]
      · simp [h1, h2, h3]

/-- C5: when the subscription history holds at most 100 entries before
the call, addNotification leaves it with at most 100 entries; and when
the appended record makes the length exceed 100, exactly the 50 most
recent entries remain, in their original order (the appended list
dropped down to its last 50 elements). -/
theorem c5_history_bounded (now : Int) (stats : NotifStats)
    (type method status : String) (messageId error : Option String)
    (h : stats.notificationHistory.length ≤ 100) :
    (addNotification now stats type method status messageId error).notificationHistory.length ≤ 100 ∧
    (stats.notificationHistory.length + 1 > 100 →
      (addNotification now stats type method status messageId error).notificationHistory =
        (stats.notificationHistory ++
          [appendedRecord type method status messageId error]).drop
          (stats.notificationHistory.length + 1 - 50) ∧
      (addNotification now stats type method status messageId error).notificationHistory.length = 50) := by
  rw [addNotification_history]
  simp only [List.length_append, List.length_cons, List.length_nil]
  by_cases hover : stats.notificationHistory.length + 1 > 100
  · have h100 : stats.notificationHistory.length = 100 := by omega
    rw [if_pos (by omega)]
    refine ⟨?_, fun _ => ⟨rfl, ?_⟩⟩
    · simp [List.length_drop, List.length_append]
      omega
    · simp [List.length_drop, List.length_append]
      omega
  · rw [if_neg (by omega)]
    exact ⟨by simp [List.length_append]; omega, fun hc => absurd hc hover⟩

/-- A notification record used by the C5 witness history. -/
def recSent : NotifRecord :=
  { type := "status_changes", method := "email", status := "sent",
    messageId := none, error := none }

/-- Statistics whose history already holds 100 entries. -/
def fullStats : NotifStats :=
  { emptyStats with notificationHistory := List.replicate 100 recSent }

/-- C5 witness: adding a 101st record to a 100-entry history leaves the
last 50 entries of the appended list, hence 50 entries, at most 100. -/
theorem c5_witness :
    fullStats.notificationHistory.length ≤ 100 ∧
    fullStats.notificationHistory.length + 1 > 100 ∧
    (addNotification 7 fullStats "status_changes" "email" "sent" none none).notificationHistory.length ≤ 100 ∧
    (addNotification 7 fullStats "status_changes" "email" "sent" none none).notificationHistory =
      (fullStats.notificationHistory ++
        [appendedRecord "status_changes" "email" "sent" none none]).drop
        (fullStats.notificationHistory.length + 1 - 50) ∧
    (addNotification 7 fullStats "status_changes" "email" "sent" none none).notificationHistory.length = 50 := by
  have hlen : fullStats.notificationHistory.length ≤ 100 := by
    simp [fullStats, emptyStats]
  have H := c5_history_bounded 7 fullStats "status_changes" "email" "sent"
    none none hlen
  have hover : fullStats.notificationHistory.length + 1 > 100 := by
    simp [fullStats, emptyStats]
  exact ⟨hlen, hover, H.1, (H.2 hover).1, (H.2 hover).2⟩

/-- C6: a subscription is verifiable exactly once — after a successful
verify, any second verify call, with any token and at any time, throws
the already-verified error; and the already-verified check takes
precedence over the token-expiry, attempt-count and token-match checks,
firing for every verified subscription whatever those fields hold. -/
theorem c6_verify_once :
    (∀ (now : Int) (s : Subscription) (token : String) (now2 : Int)
       (token2 : String) (s2 : Subscription),
      Subscription.verify now s token = .verified s2 →
      Subscription.verify now2 s2 token2 = .thrown .alreadyVerified s2) ∧
    (∀ (now : Int) (s : Subscription) (token : String),
      s.verification.isVerified = true →
      Subscription.verify now s token = .thrown .alreadyVerified s) := by
  have hpre : ∀ (now : Int) (s : Subscription) (token : String),
      s.verification.isVerified = true →
      Subscription.verify now s token = .thrown .alreadyVerified s := by
    intro now s token hv
    unfold Subscription.verify
    simp [hv]
  refine ⟨?_, hpre⟩
  intro now s token now2 token2 s2 h
  have hs2 : s2.verification.isVerified = true := by
    unfold Subscription.verify at h
    by_cases h1 : s.verification.isVerified
    · simp [h1] at h
    · by_cases h2 : isVerificationExpired now s.verification
      · simp [h1, h2] at h
      · by_cases h3 : s.verification.verificationAttempts ≥ 5
        · simp [h1, h2, h3] at h
        · by_cases h4 : s.verification.verificationToken ≠ some token
          · simp [h1, h2, h3, h4] at h
          · simp [h1, h2, h3, h4] at h
            rw [← h]
  exact hpre now2 s2 token2 hs2

/-- C6 witness: verifying the fresh subscription with its correct token
succeeds, and a second verify with the same correct original token
throws the already-verified error. -/
theorem c6_witness :
    Subscription.verify 50 baseSubscription "tok-1" = .verified verifiedSub ∧
    Subscription.verify 60 verifiedSub "tok-1" =
      .thrown .alreadyVerified verifiedSub ∧
    (verifiedSub.verification.isVerified = true ∧
     Subscription.verify 70 verifiedSub "tok-2" =
       .thrown .alreadyVerified verifiedSub) :=
  ⟨by decide,
   c6_verify_once.1 50 baseSubscription "tok-1" 60 "tok-1" verifiedSub
     (by decide),
   by decide, c6_verify_once.2 70 verifiedSub "tok-2" (by decide)⟩

/-- C4 counterexample: with maxPerHour = 1, dispatching twice for the
same matching recipient within the same clock hour (times 0 and 1000
fall in hourly bucket 0) does not rate-limit the second call — dispatch
never calls updateRateLimit, the store after the first call equals the
store before it, so the second call also finds a zero hourly count, its
detail entry is sent rather than rate_limited, and its sent count is 1
rather than 0. -/
theorem c4_second_dispatch_not_rate_limited :
    notifyStatusChange true dispatchCfg [] 0 .scheduled .boarding sendOk
      (.ok [baseSubscription]) = .returned sentResults [sentSubAt 0] ∧
    notifyStatusChangeStore [] = ([] : RateStore) ∧
    notifyStatusChange true dispatchCfg (notifyStatusChangeStore []) 1000
      .scheduled .boarding sendOk (.ok [baseSubscription]) =
      .returned sentResults [sentSubAt 1000] := by
  refine ⟨by decide, rfl, by decide⟩

/-- C4 (amended): dispatch consults checkRateLimit but never updates
the counters, and leaves the rate-limit store unchanged; a recipient is
marked rate_limited with no send counted only when the hourly counter
already holds at least maxPerHour — here with maxPerHour = 1, once
updateRateLimit has been applied externally at least once for the
current hour, a dispatch for that recipient records rate_limited and a
sent count of zero. -/
theorem c4_rate_limit_amended (cfg : RateCfg) (st : RateStore) (now : Int)
    (oldStatus newStatus : FlightStatus) (send : String → SendOutcome)
    (sub : Subscription)
    (hcfg : cfg.maxPerHour = 1)
    (hpref : shouldNotifyStatusChange sub.notificationPreferences oldStatus
      newStatus = true)
    (hcount : 1 ≤ storeGet st (hourlyKey sub.email now)) :
    notifyStatusChange true cfg st now oldStatus newStatus send (.ok [sub]) =
      .returned
        { success := true, notificationsSent := 0, notificationsFailed := 0,
          details := [{ email := sub.email, status := "rate_limited",
                        messageId := none, error := none,
                        message := some "Rate limit exceeded" }],
          message := none, error := none } [sub] ∧
    notifyStatusChangeStore st = st := by
  refine ⟨?_, rfl⟩
  have hc : checkRateLimit cfg st sub.email now = false := by
    unfold checkRateLimit
    rw [hcfg]
    simp only [ge_iff_le]
    rw [if_pos hcount]
  unfold notifyStatusChange notifyStatusChangeInner
  simp only [Bool.not_true, Bool.false_eq_true, if_false, List.length_cons,
    List.length_nil, List.foldl]
  unfold processSubscription
  rw [hpref]
  simp only [Bool.not_true, Bool.false_eq_true, if_false, hc, Bool.not_false,
    if_true]
  simp [emptyResults]

/-- C4 witness: after one external updateRateLimit at time 0, a
dispatch at time 1000 (same hourly bucket) for the default-preference
subscription is rate limited and counts no send. -/
theorem c4_witness :
    dispatchCfg.maxPerHour = 1 ∧
    shouldNotifyStatusChange baseSubscription.notificationPreferences
      .scheduled .boarding = true ∧
    1 ≤ storeGet (updateRateLimit [] "passenger@example.com" 0)
      (hourlyKey "passenger@example.com" 1000) ∧
    (notifyStatusChange true dispatchCfg
      (updateRateLimit [] "passenger@example.com" 0) 1000 .scheduled .boarding
      sendOk (.ok [baseSubscription]) =
      .returned rateLimitedResults [baseSubscription] ∧
     notifyStatusChangeStore (updateRateLimit [] "passenger@example.com" 0) =
      updateRateLimit [] "passenger@example.com" 0) :=
  ⟨rfl, by decide, by decide,
   c4_rate_limit_amended dispatchCfg
     (updateRateLimit [] "passenger@example.com" 0) 1000 .scheduled .boarding
     sendOk baseSubscription rfl (by decide) (by decide)⟩

/-- C8 counterexample: when the subscription query fails, the top-level
caller of notifyStatusChange does not observe a thrown DatabaseError —
the outer catch converts it into a returned aggregate with success
false and the error message, so the claim that the error is surfaced as
a thrown error is false. -/
theorem c8_db_error_returned_not_thrown :
    notifyStatusChange true dispatchCfg [] 0 .scheduled .boarding sendOk
      (.error "Database connection lost") =
      .returned
        { success := false, notificationsSent := 0, notificationsFailed := 0,
          details := [], message := none,
          error := some "Database connection lost" } [] ∧
    (notifyStatusChange true dispatchCfg [] 0 .scheduled .boarding sendOk
      (.error "Database connection lost")).isThrown = false := by
  constructor <;> decide

/-- C8 (amended): a subscription-query failure during dispatch aborts
the batch before any per-subscription processing (the error propagates
out of the try body, shown by notifyStatusChangeInner), and is surfaced
to the top-level caller as a returned failure aggregate carrying the
error message and zero counts and details — not as a thrown error;
per-subscription records persisted before the failure are outside this
return value and are not rolled back. -/
theorem c8_query_failure_amended (cfg : RateCfg) (st : RateStore) (now : Int)
    (oldStatus newStatus : FlightStatus) (send : String → SendOutcome)
    (msg : String) :
    notifyStatusChange true cfg st now oldStatus newStatus send (.error msg) =
      .returned
        { success := false, notificationsSent := 0, notificationsFailed := 0,
          details := [], message := none, error := some msg } [] ∧
    notifyStatusChangeInner cfg st now oldStatus newStatus send (.error msg) =
      .error msg :=
  ⟨rfl, rfl⟩

/-- Inductive core of the retry bound: from any attempt number, the
number of performed tries is at most retryAttempts + 1 - attempt, every
performed try is preceded by a wait of retryDelay times its attempt
number, and when every send fails the final result is the returned
max-retry failure. -/
theorem retry_spec_aux : ∀ (k : Nat) (cfg : RetryConfig)
    (outcomes : Nat → TryOutcome) (attempt : Nat),
    cfg.retryAttempts + 1 - attempt ≤ k →
    (retryFailedNotification cfg outcomes attempt).2.length ≤
      cfg.retryAttempts + 1 - attempt ∧
    ((retryFailedNotification cfg outcomes attempt).2.all
      (fun p => p.2 == cfg.retryDelay * p.1)) = true ∧
    ((∀ n, outcomes n = .fail) →
      (retryFailedNotification cfg outcomes attempt).1 =
        { success := false, messageId := none,
          error := some "Max retry attempts reached" }) := by
  intro k
  induction k with
  | zero =>
    intro cfg outcomes attempt hk
    have hgt : attempt > cfg.retryAttempts := by omega
    rw [retryFailedNotification]
    simp [hgt]
  | succ k ih =>
    intro cfg outcomes attempt hk
    rw [retryFailedNotification]
    by_cases hgt : attempt > cfg.retryAttempts
    · simp [hgt]
    · simp only [hgt, dite_false]
      cases houtcome : outcomes attempt with
      | ok m =>
        simp only [List.length_cons, List.length_nil, List.all_cons,
          List.all_nil, Bool.and_true, beq_self_eq_true]
        refine ⟨by omega, by trivial, fun hall => ?_⟩
        have := hall attempt
        rw [houtcome] at this
        exact absurd this (by simp)
      | fail =>
        have H := ih cfg outcomes (attempt + 1) (by omega)
        simp only [List.length_cons, List.all_cons, beq_self_eq_true,
          Bool.true_and]
        exact ⟨by omega, H.2.1, fun hall => H.2.2 hall⟩
      | exn e =>
        by_cases hlt : attempt < cfg.retryAttempts
        · simp only [hlt, dite_true]
          have H := ih cfg outcomes (attempt + 1) (by omega)
          simp only [List.length_cons, List.all_cons, beq_self_eq_true,
            Bool.true_and]
          exact ⟨by omega, H.2.1, fun hall => H.2.2 hall⟩
        · simp only [hlt, dite_false]
          simp only [List.length_cons, List.length_nil, List.all_cons,
            List.all_nil, Bool.and_true, beq_self_eq_true]
          refine ⟨by omega, by trivial, fun hall => ?_⟩
          have := hall attempt
          rw [houtcome] at this
          exact absurd this (by simp)

/-- C9: the retry procedure entered at attempt 1 is bounded and total —
it performs at most retryAttempts tries, each preceded by a wait of
retryDelay times the attempt number (linear backoff, recorded in the
trace), and when every try fails it terminates with the returned final
failure result rather than a thrown error. Totality over all inputs
holds by construction: retryFailedNotification is a total function. -/
theorem c9_retry_bounded (cfg : RetryConfig) (outcomes : Nat → TryOutcome) :
    (retryFailedNotification cfg outcomes 1).2.length ≤ cfg.retryAttempts ∧
    ((retryFailedNotification cfg outcomes 1).2.all
      (fun p => p.2 == cfg.retryDelay * p.1)) = true ∧
    ((∀ n, outcomes n = .fail) →
      (retryFailedNotification cfg outcomes 1).1 =
        { success := false, messageId := none,
          error := some "Max retry attempts reached" }) := by
  have H := retry_spec_aux (cfg.retryAttempts + 1 - 1) cfg outcomes 1
    (le_refl _)
  exact ⟨by have := H.1; omega, H.2.1, H.2.2⟩

/-- A delivery channel whose send fails on every attempt. -/
def alwaysFail : Nat → TryOutcome := fun _ => TryOutcome.fail

/-- C9 witness: with three configured retries and a channel that always
fails, the procedure returns the max-retry failure. -/
theorem c9_witness :
    (∀ n, alwaysFail n = TryOutcome.fail) ∧
    (retryFailedNotification { retryAttempts := 3, retryDelay := 300000 }
      alwaysFail 1).1 =
      { success := false, messageId := none,
        error := some "Max retry attempts reached" } :=
  ⟨fun _ => rfl,
   (c9_retry_bounded { retryAttempts := 3, retryDelay := 300000 }
     alwaysFail).2.2 (fun _ => rfl)⟩
